import Mathlib

/-!
Vro renderer: frame presentation and swapchain rebuild

A shallow embedding of `src/engine/renderer.cpp`, `src/engine/base.cpp`,
`src/platform/win32/platform_win32.cpp` and the main loop of `src/main_win32.cpp`.

The graphics driver and the operating system are outside the program. Every call the
program makes to them is appended to a trace of `Call`s, and every value they hand
back (result codes, handles, the acquired image index) is read from an environment
record that is an argument of the embedded function. `platform::exit_program`
calls `ExitProcess`, which does not return: a run that reaches it stops there and
carries the exit status.
-/

namespace Vro

/-- Vulkan handles are opaque pointers; `0` is the null handle (`nullptr`). -/
abbrev Handle := Nat

/-- The constant `FRAMES_IN_FLIGHT` of `renderer.h`. -/
def FRAMES_IN_FLIGHT : Nat := 2

/-- Number of values of a `uint32_t`. -/
def UINT32_SIZE : Nat := 2 ^ 32

/-- Calls into the graphics driver and the operating system, with the arguments that
differ between calls (the `VkDevice`/`VkQueue` argument, the same in every call, and the
constant parts of the create-info structures are left out) and the value handed back.
A creation result `none` is a result code other than `VK_SUCCESS`. A `float` argument
is given by the number it holds. -/
inductive Call where
  | vkDeviceWaitIdle
  | vkDestroyImageView (view : Handle)
  | vkDestroyFramebuffer (framebuffer : Handle)
  | vkCreateSwapchainKHR (surface : Handle) (width height : Nat) (oldSwapchain : Handle)
      (result : Option Handle)
  | vkDestroySwapchainKHR (swapchain : Handle)
  | vkGetSwapchainImagesKHR (swapchain : Handle) (fill : Bool) (count : Nat)
  | vkCreateImageView (image : Handle) (result : Option Handle)
  | vkCreateFramebuffer (renderPass attachment : Handle) (width height : Nat)
      (result : Option Handle)
  | vkWaitForFences (fence : Handle)
  | vkResetFences (fence : Handle)
  | vkResetCommandBuffer (cmd_buf : Handle)
  | vkBeginCommandBuffer (cmd_buf : Handle) (success : Bool)
  | vkAcquireNextImageKHR (swapchain semaphore : Handle) (image_index : Nat)
  | vkCmdBeginRenderPass (cmd_buf renderPass framebuffer : Handle) (area_width area_height : Nat)
  | vkCmdBindPipeline (cmd_buf pipeline : Handle)
  | vkCmdSetViewport (cmd_buf : Handle) (width height : Nat)
  | vkCmdSetScissor (cmd_buf : Handle) (width height : Nat)
  | vkCmdDraw (cmd_buf : Handle) (vertexCount instanceCount firstVertex firstInstance : Nat)
  | vkCmdEndRenderPass (cmd_buf : Handle)
  | vkEndCommandBuffer (cmd_buf : Handle) (success : Bool)
  | vkQueueSubmit (waitSemaphore cmd_buf fence : Handle)
  | vkQueuePresentKHR (swapchain : Handle) (image_index : Nat)
  | vkCreateShaderModule (code : List Nat) (result : Option Handle)
  | fopen_s (path : String) (opened : Bool)
  | MessageBoxA (lpText lpCaption : String)
  | ExitProcess (code : Nat)
  deriving DecidableEq, Repr

/-- The data members of `class Renderer` that `resize`, `present` and `load_shader` use.
The fixed arrays of `FRAMES_IN_FLIGHT` entries are lists read at the slot cursor. -/
structure Renderer where
  m_surface : Handle
  m_swapchain : Handle
  m_swapchain_width : Nat
  m_swapchain_height : Nat
  m_swapchain_images : List Handle
  m_swapchain_image_views : List Handle
  m_swapchain_framebuffers : List Handle
  m_fences : List Handle
  m_render_pass : Handle
  m_pipeline : Handle
  m_semaphores : List Handle
  m_command_buffers : List Handle
  m_frame_index : Nat
  deriving DecidableEq, Repr

/-- Outcome of running a member function: the renderer it leaves, the calls it made in
order, and the status given to `ExitProcess` when the run ended there. -/
structure Run where
  renderer : Renderer
  trace : List Call
  exited : Option Nat
  deriving DecidableEq, Repr

/-! ## Fatal errors (`renderer.cpp` 17-22, `platform_win32.cpp` 22-28) -/

/-- Replacement of `\x7b\x7d` fields by the arguments in order, as `std::format` does for
string arguments; a doubled brace stands for one brace. -/
def format_chars : List Char → List String → List Char
  | '\x7b' :: '\x7d' :: rest, a :: args => a.data ++ format_chars rest args
  | '\x7b' :: '\x7b' :: rest, args => '\x7b' :: format_chars rest args
  | '\x7d' :: '\x7d' :: rest, args => '\x7d' :: format_chars rest args
  | c :: rest, args => c :: format_chars rest args
  | [], _ => []

/-- The string `std::format(fmt, args...)`. -/
def format (fmt : String) (args : List String) : String :=
  String.mk (format_chars fmt.data args)

/-- Function `platform::message_box(title, message)`: `MessageBoxA(nullptr, message, title, 0)`. -/
def message_box (title message : String) : List Call :=
  [Call.MessageBoxA message title]

/-- Function `platform::exit_program(code)`: `ExitProcess(code)`. -/
def exit_program (code : Nat) : List Call :=
  [Call.ExitProcess code]

/-- Function `fatal_error(fmt, args...)`: formats the message, calls
`platform::message_box(s.c_str(), "Error")`, then `platform::exit_program(1)`. -/
def fatal_error (fmt : String) (args : List String) : List Call :=
  let s := format fmt args
  message_box s "Error" ++ exit_program 1

/-! ## `Renderer::present` (`renderer.cpp` 431-521) -/

/-- Conversion `(float)x` of a `uint32_t` to IEEE-754 binary32, round to nearest, ties to
even: the number of low bits that do not fit the 24-bit significand. -/
def float_shift : Nat → Nat → Nat
  | 0, _ => 0
  | fuel + 1, x => if x < 2 ^ 24 then 0 else 1 + float_shift fuel (x / 2)

/-- The number held by `(float)x` for a `uint32_t` value `x`. -/
def to_float (x : Nat) : Nat :=
  let e := float_shift 32 x
  let q := x / 2 ^ e
  let rem := x % 2 ^ e
  if 2 * rem > 2 ^ e ∨ (2 * rem = 2 ^ e ∧ q % 2 = 1) then (q + 1) * 2 ^ e else q * 2 ^ e

/-- What the driver hands back during one `present()`. -/
structure PresentEnv where
  begin_ok : Bool
  image_index : Nat
  end_ok : Bool
  deriving DecidableEq, Repr

/-- Function `Renderer::present()`. The results of `vkWaitForFences`, `vkResetFences`,
`vkResetCommandBuffer`, `vkAcquireNextImageKHR`, `vkQueueSubmit` and `vkQueuePresentKHR`
are not looked at by the source. -/
def present (r : Renderer) (env : PresentEnv) : Run :=
  let cmd_buf := r.m_command_buffers.getD r.m_frame_index 0
  let fence := r.m_fences.getD r.m_frame_index 0
  let semaphore := r.m_semaphores.getD r.m_frame_index 0
  let t1 := [Call.vkWaitForFences fence, Call.vkResetFences fence,
    Call.vkResetCommandBuffer cmd_buf, Call.vkBeginCommandBuffer cmd_buf env.begin_ok]
  if env.begin_ok = false then
    ⟨r, t1 ++ fatal_error "Failed to begin Vulkan command buffer." [], some 1⟩
  else
    let image_index := env.image_index
    let framebuffer := r.m_swapchain_framebuffers.getD image_index 0
    let t2 := t1 ++ [
      Call.vkAcquireNextImageKHR r.m_swapchain semaphore image_index,
      Call.vkCmdBeginRenderPass cmd_buf r.m_render_pass framebuffer
        r.m_swapchain_width r.m_swapchain_height,
      Call.vkCmdBindPipeline cmd_buf r.m_pipeline,
      Call.vkCmdSetViewport cmd_buf (to_float r.m_swapchain_width) (to_float r.m_swapchain_height),
      Call.vkCmdSetScissor cmd_buf r.m_swapchain_width r.m_swapchain_height,
      Call.vkCmdDraw cmd_buf 3 1 0 0,
      Call.vkCmdEndRenderPass cmd_buf,
      Call.vkEndCommandBuffer cmd_buf env.end_ok]
    if env.end_ok = false then
      ⟨r, t2 ++ fatal_error "Failed to end Vulkan command buffer." [], some 1⟩
    else
      let t3 := t2 ++ [
        Call.vkQueueSubmit semaphore cmd_buf fence,
        Call.vkQueuePresentKHR r.m_swapchain image_index]
      ⟨{ r with m_frame_index := (r.m_frame_index + 1) % UINT32_SIZE % FRAMES_IN_FLIGHT },
        t3, none⟩

/-- Consecutive calls of `present()`, one per environment, stopping at a fatal error. -/
def present_frames : List PresentEnv → Renderer → Run
  | [], r => ⟨r, [], none⟩
  | env :: envs, r =>
    let a := present r env
    match a.exited with
    | some code => ⟨a.renderer, a.trace, some code⟩
    | none =>
      let b := present_frames envs a.renderer
      ⟨b.renderer, a.trace ++ b.trace, b.exited⟩

/-- A renderer as the constructor leaves it for an 800 by 600 window with two swapchain
images: cursor 0, handles numbered from 1. -/
def sample_renderer : Renderer :=
  { m_surface := 1, m_swapchain := 2, m_swapchain_width := 800, m_swapchain_height := 600,
    m_swapchain_images := [3, 4], m_swapchain_image_views := [5, 6],
    m_swapchain_framebuffers := [7, 8], m_fences := [9, 10], m_render_pass := 11,
    m_pipeline := 12, m_semaphores := [13, 14], m_command_buffers := [15, 16],
    m_frame_index := 0 }

/-- A driver that reports success and acquires image 0. -/
def good_present_env : PresentEnv := ⟨true, 0, true⟩

/-! ## `Renderer::resize` (`renderer.cpp` 342-429) -/

/-- What the driver hands back during one `resize()`: the new swapchain (or no handle when
`vkCreateSwapchainKHR` does not return `VK_SUCCESS`), the images of that swapchain (the
count query of `vkGetSwapchainImagesKHR` reports their number, the fill query copies
them), and per image index the created view and framebuffer (or no handle on failure). -/
structure ResizeEnv where
  swapchain : Option Handle
  images : List Handle
  image_view : Nat → Option Handle
  framebuffer : Nat → Option Handle

/-- Member `std::vector::resize(n)`: keeps the first `n` elements and pads with null handles. -/
def vec_resize (v : List Handle) (n : Nat) : List Handle :=
  v.take n ++ List.replicate (n - v.length) 0

/-- The fill query `vkGetSwapchainImagesKHR(.., &count, v.data())`: the driver's images are
written over the start of the vector. -/
def vec_fill (v : List Handle) (src : List Handle) : List Handle :=
  src.take v.length ++ v.drop src.length

/-- The loop `for (auto i : Range<uint32_t>(image_count))` of `resize`, with `todo`
iterations left and `i` the index of the next one. -/
def resize_loop (env : ResizeEnv) (width height : Nat) : Nat → Nat → Renderer → Run
  | 0, _, r => ⟨r, [], none⟩
  | todo + 1, i, r =>
    let image := r.m_swapchain_images.getD i 0
    match env.image_view i with
    | none =>
      ⟨r, [Call.vkCreateImageView image none] ++
        fatal_error "Failed to create Vulkan swapchain image view." [], some 1⟩
    | some view =>
      let r1 := { r with m_swapchain_image_views := r.m_swapchain_image_views.set i view }
      let attachment := r1.m_swapchain_image_views.getD i 0
      match env.framebuffer i with
      | none =>
        ⟨r1, [Call.vkCreateImageView image (some view),
            Call.vkCreateFramebuffer r1.m_render_pass attachment width height none] ++
          fatal_error "Failed to create Vulkan framebuffer." [], some 1⟩
      | some fb =>
        let r2 := { r1 with m_swapchain_framebuffers := r1.m_swapchain_framebuffers.set i fb }
        let rest := resize_loop env width height todo (i + 1) r2
        ⟨rest.renderer,
          [Call.vkCreateImageView image (some view),
            Call.vkCreateFramebuffer r1.m_render_pass attachment width height (some fb)] ++
            rest.trace,
          rest.exited⟩

/-- The calls that destroy the old image views and framebuffers (`renderer.cpp` 348-356). -/
def destroy_old (r : Renderer) : List Call :=
  if r.m_swapchain_image_views.length ≠ 0 then
    r.m_swapchain_image_views.map Call.vkDestroyImageView ++
      r.m_swapchain_framebuffers.map Call.vkDestroyFramebuffer
  else []

/-- Function `Renderer::resize(width, height)`. -/
def resize (r : Renderer) (width height : Nat) (env : ResizeEnv) : Run :=
  let r1 := { r with m_swapchain_width := width, m_swapchain_height := height }
  let t1 := [Call.vkDeviceWaitIdle] ++ destroy_old r1
  let oldSwapchain := r1.m_swapchain
  match env.swapchain with
  | none =>
    ⟨r1, t1 ++ [Call.vkCreateSwapchainKHR r1.m_surface width height oldSwapchain none] ++
      fatal_error "Failed to create Vulkan swapchain." [], some 1⟩
  | some swapchain =>
    let r2 := { r1 with m_swapchain := swapchain }
    let t2 := t1 ++
      [Call.vkCreateSwapchainKHR r1.m_surface width height oldSwapchain (some swapchain)] ++
      (if oldSwapchain ≠ 0 then [Call.vkDestroySwapchainKHR oldSwapchain] else [])
    let image_count := env.images.length
    let r3 := { r2 with
      m_swapchain_images := vec_resize r2.m_swapchain_images image_count
      m_swapchain_image_views := vec_resize r2.m_swapchain_image_views image_count
      m_swapchain_framebuffers := vec_resize r2.m_swapchain_framebuffers image_count }
    let r4 := { r3 with m_swapchain_images := vec_fill r3.m_swapchain_images env.images }
    let t3 := t2 ++ [Call.vkGetSwapchainImagesKHR swapchain false image_count,
      Call.vkGetSwapchainImagesKHR swapchain true image_count]
    let rest := resize_loop env width height image_count 0 r4
    ⟨rest.renderer, t3 ++ rest.trace, rest.exited⟩

/-- The renderer `resize` hands to its loop once the swapchain `sc` has been created. -/
def resize_prepared (r : Renderer) (width height : Nat) (env : ResizeEnv) (sc : Handle) :
    Renderer :=
  { r with
    m_swapchain_width := width
    m_swapchain_height := height
    m_swapchain := sc
    m_swapchain_images := vec_fill (vec_resize r.m_swapchain_images env.images.length) env.images
    m_swapchain_image_views := vec_resize r.m_swapchain_image_views env.images.length
    m_swapchain_framebuffers := vec_resize r.m_swapchain_framebuffers env.images.length }

/-- The calls of `resize` before its loop once the swapchain `sc` has been created. -/
def resize_head_calls (r : Renderer) (width height : Nat) (env : ResizeEnv) (sc : Handle) :
    List Call :=
  [Call.vkDeviceWaitIdle] ++ destroy_old r ++
    [Call.vkCreateSwapchainKHR r.m_surface width height r.m_swapchain (some sc)] ++
    (if r.m_swapchain ≠ 0 then [Call.vkDestroySwapchainKHR r.m_swapchain] else []) ++
    [Call.vkGetSwapchainImagesKHR sc false env.images.length,
      Call.vkGetSwapchainImagesKHR sc true env.images.length]

/-- A driver that creates swapchain `20` with the given images, view `100 + i` and
framebuffer `200 + i` for image `i`. -/
def good_resize_env (images : List Handle) : ResizeEnv :=
  { swapchain := some 20, images := images,
    image_view := fun i => some (100 + i), framebuffer := fun i => some (200 + i) }

/-- A driver whose `vkCreateSwapchainKHR` fails. -/
def no_swapchain_env : ResizeEnv :=
  { swapchain := none, images := [], image_view := fun _ => none, framebuffer := fun _ => none }

/-- A driver that creates swapchain `20` with one image and fails to create its view. -/
def no_view_env : ResizeEnv :=
  { swapchain := some 20, images := [40], image_view := fun _ => none,
    framebuffer := fun _ => none }

/-! ## `load_binary` (`base.cpp`) and `Renderer::load_shader` (`renderer.cpp` 523-542) -/

/-- What the file system and the driver hand back during one `load_shader()`: the bytes
of the file at a path (nothing when `fopen_s` fails), and the created module. -/
structure ShaderEnv where
  file : String → Option (List Nat)
  shader_module : Option Handle

/-- Function `load_binary(path)`: `std::nullopt` when the file cannot be opened, else its bytes. -/
def load_binary (file : String → Option (List Nat)) (path : String) :
    Option (List Nat) × List Call :=
  match file path with
  | none => (none, [Call.fopen_s path false])
  | some buf => (some buf, [Call.fopen_s path true])

/-- Outcome of `load_shader`: the module returned, the calls made, the exit status. -/
structure ShaderRun where
  result : Option Handle
  trace : List Call
  exited : Option Nat
  deriving DecidableEq, Repr

/-- Function `Renderer::load_shader(path)`. -/
def load_shader (path : String) (env : ShaderEnv) : ShaderRun :=
  match load_binary env.file path with
  | (none, t) => ⟨none, t ++ fatal_error "Missing shader at '\x7b\x7d'" [path], some 1⟩
  | (some shader_code, t) =>
    match env.shader_module with
    | none =>
      ⟨none, t ++ [Call.vkCreateShaderModule shader_code none] ++
        fatal_error "Error in shader creation '\x7b\x7d'" [path], some 1⟩
    | some module => ⟨some module, t ++ [Call.vkCreateShaderModule shader_code (some module)], none⟩

/-- A file system without any file. -/
def empty_disk : ShaderEnv := { file := fun _ => none, shader_module := some 30 }

/-- Whether a call creates a shader module. -/
def Call.creates_shader_module : Call → Bool
  | Call.vkCreateShaderModule _ _ => true
  | _ => false

/-! ## One iteration of the main loop (`main_win32.cpp` 53-77) -/

/-- The `struct Events` the window procedure fills while the messages are pumped. -/
structure Events where
  closed : Bool
  resize : Option (Nat × Nat)
  deriving DecidableEq, Repr

/-- Member functions of the renderer the main loop calls. -/
inductive Method where
  | resize (w h : Nat)
  | present
  deriving DecidableEq, Repr

/-- Outcome of one iteration: the renderer, the calls made, the member functions invoked
in order, the exit status, and whether the loop was left by `break`. -/
structure Iteration where
  renderer : Renderer
  trace : List Call
  invoked : List Method
  exited : Option Nat
  left_loop : Bool

/-- The body of `while (true)` in `main`, after the message pump has filled `e`. -/
def main_iteration (e : Events) (r : Renderer) (renv : ResizeEnv) (penv : PresentEnv) :
    Iteration :=
  if e.closed = true then ⟨r, [], [], none, true⟩
  else
    match e.resize with
    | some (w, h) =>
      if w = 0 ∨ h = 0 then ⟨r, [], [], none, false⟩
      else
        let a := resize r w h renv
        match a.exited with
        | some code => ⟨a.renderer, a.trace, [Method.resize w h], some code, false⟩
        | none =>
          let b := present a.renderer penv
          ⟨b.renderer, a.trace ++ b.trace, [Method.resize w h, Method.present], b.exited, false⟩
    | none =>
      let b := present r penv
      ⟨b.renderer, b.trace, [Method.present], b.exited, false⟩

/-! ## Frames in flight: the fences as the GPU sees them -/

/-- The part of the GPU state the frame scheduler depends on: which fences are signaled,
and for every submitted frame that has not completed the fence it will signal. -/
structure Gpu where
  signaled : Handle → Bool
  in_flight : List Handle

/-- Effect of one call on the GPU state. `vkWaitForFences` is called with the timeout
`UINT64_MAX`: it returns only once the fence is signaled, so there is no next state while
the fence is unsignaled. -/
def Gpu.call (g : Gpu) : Call → Option Gpu
  | Call.vkWaitForFences fence => if g.signaled fence = true then some g else none
  | Call.vkResetFences fence =>
    some { g with signaled := fun f => if f = fence then false else g.signaled f }
  | Call.vkQueueSubmit _ _ fence => some { g with in_flight := g.in_flight ++ [fence] }
  | _ => some g

/-- Effect of a sequence of calls on the GPU state. -/
def Gpu.calls : Gpu → List Call → Option Gpu
  | g, [] => some g
  | g, c :: cs =>
    match g.call c with
    | none => none
    | some g1 => Gpu.calls g1 cs

/-- Completion of the `k`-th frame in flight: it leaves the list and its fence is signaled. -/
def Gpu.complete (g : Gpu) (k : Nat) : Option Gpu :=
  match g.in_flight[k]? with
  | none => none
  | some fence =>
    some { signaled := fun f => if f = fence then true else g.signaled f,
           in_flight := g.in_flight.eraseIdx k }

/-- The renderer together with the GPU. -/
structure System where
  renderer : Renderer
  gpu : Gpu

/-- The two steps of the frame scheduler. -/
inductive Action where
  | present (env : PresentEnv)
  | complete (k : Nat)

/-- One step: a `present()` that returns (its calls applied to the GPU state), or the
completion of a frame in flight. There is no next state when the wait does not return,
when `present()` ends the process, or when frame `k` does not exist. -/
def System.step (s : System) : Action → Option System
  | Action.present env =>
    let a := present s.renderer env
    match a.exited with
    | some _ => none
    | none =>
      match s.gpu.calls a.trace with
      | none => none
      | some g => some ⟨a.renderer, g⟩
  | Action.complete k =>
    match s.gpu.complete k with
    | none => none
    | some g => some ⟨s.renderer, g⟩

/-- A sequence of steps. -/
def System.run : System → List Action → Option System
  | s, [] => some s
  | s, a :: as =>
    match s.step a with
    | none => none
    | some s1 => System.run s1 as

/-- The state the constructor leaves (`renderer.cpp` 166-173, `renderer.h` 41): cursor 0,
one fence per slot, every fence created signaled, nothing submitted. -/
def System.constructed (s : System) : Prop :=
  s.renderer.m_frame_index = 0 ∧ s.renderer.m_fences.length = FRAMES_IN_FLIGHT ∧
    (∀ f ∈ s.renderer.m_fences, s.gpu.signaled f = true) ∧ s.gpu.in_flight = []

/-- Number of frames in flight that were submitted with the fence of a slot. -/
def System.in_flight_of (s : System) (slot : Nat) : Nat :=
  (s.gpu.in_flight.filter (fun f => f = s.renderer.m_fences.getD slot 0)).length

/-- What holds in every state the scheduler can reach. -/
structure System.Inv (s : System) : Prop where
  cursor : s.renderer.m_frame_index < 2
  fences : s.renderer.m_fences.length = 2
  idle : ∀ f, s.gpu.signaled f = true → f ∉ s.gpu.in_flight
  nodup : s.gpu.in_flight.Nodup
  known : ∀ f ∈ s.gpu.in_flight, f ∈ s.renderer.m_fences

/-- The sample renderer right after construction. -/
def sample_system : System :=
  ⟨sample_renderer, { signaled := fun _ => true, in_flight := [] }⟩

/-- Two frames are presented, the first one completes, a third one is presented. -/
def sample_actions : List Action :=
  [Action.present good_present_env, Action.present good_present_env, Action.complete 0,
    Action.present good_present_env]

/-- Whether a call destroys a swapchain. -/
def Call.destroys_swapchain : Call → Bool
  | Call.vkDestroySwapchainKHR _ => true
  | _ => false

/-! ## Order of the calls of `present` -/

/-- Whether a call resets, begins, records into or ends the command buffer `cmd_buf`. -/
def Call.rerecords (cmd_buf : Handle) : Call → Bool
  | Call.vkResetCommandBuffer c => c = cmd_buf
  | Call.vkBeginCommandBuffer c _ => c = cmd_buf
  | Call.vkCmdBeginRenderPass c _ _ _ _ => c = cmd_buf
  | Call.vkCmdBindPipeline c _ => c = cmd_buf
  | Call.vkCmdSetViewport c _ _ => c = cmd_buf
  | Call.vkCmdSetScissor c _ _ => c = cmd_buf
  | Call.vkCmdDraw c _ _ _ _ => c = cmd_buf
  | Call.vkCmdEndRenderPass c => c = cmd_buf
  | Call.vkEndCommandBuffer c _ => c = cmd_buf
  | _ => false

/-! ## Queue family selection in the constructor (`renderer.cpp` 113-134) -/

/-- The constant `VK_QUEUE_GRAPHICS_BIT` of the Vulkan headers. -/
def VK_QUEUE_GRAPHICS_BIT : Nat := 1

/-- The initial value `0xffffffff` of `queue_id`, which stands for no family found. -/
def NO_QUEUE_ID : Nat := 0xffffffff

/-- One entry of `queue_props` together with what the driver answers for its index: the
`queueFlags` bit mask, and the `VkBool32` that `vkGetPhysicalDeviceSurfaceSupportKHR` leaves
in `present_support` (which starts as `false`, that is 0). -/
structure QueueFamily where
  queueFlags : Nat
  present_support : Nat
  deriving DecidableEq, Repr

/-- The test `flags & VK_QUEUE_GRAPHICS_BIT && present_support` of the loop. -/
def QueueFamily.graphics_and_present (q : QueueFamily) : Bool :=
  decide (q.queueFlags &&& VK_QUEUE_GRAPHICS_BIT ≠ 0) && decide (q.present_support ≠ 0)

/-- The loop `for (uint32_t i = 0; i < queue_props.size(); ++i)` with its `break`, started
at index `i`: the value of `queue_id` when the loop is left, or nothing when the given
number of iterations does not suffice. The index is a `uint32_t` and wraps. -/
def queue_family_loop (queue_props : List QueueFamily) : Nat → Nat → Option Nat
  | 0, _ => none
  | fuel + 1, i =>
    match queue_props[i]? with
    | none => some NO_QUEUE_ID
    | some q =>
      if q.graphics_and_present = true then some i
      else queue_family_loop queue_props fuel ((i + 1) % UINT32_SIZE)

/-- Outcome of the selection: the chosen `queue_id`, the calls made, the exit status. -/
structure QueueSelection where
  queue_id : Nat
  trace : List Call
  exited : Option Nat
  deriving DecidableEq, Repr

/-- Lines 115-134 of the constructor: the loop, then the fatal error when `queue_id` still
is `0xffffffff`. The loop is given one iteration more than there are families. -/
def select_queue_family (queue_props : List QueueFamily) : Option QueueSelection :=
  match queue_family_loop queue_props (queue_props.length + 1) 0 with
  | none => none
  | some queue_id =>
    if queue_id = NO_QUEUE_ID then
      some ⟨queue_id, fatal_error "Failed to find a Vulkan queue family" [], some 1⟩
    else some ⟨queue_id, [], none⟩

/-- Four families: transfer only, graphics without presentation, graphics with presentation,
and a second one with both. -/
def sample_families : List QueueFamily :=
  [⟨4, 1⟩, ⟨7, 0⟩, ⟨15, 1⟩, ⟨1, 1⟩]

/-! ## Objects a call uses -/

/-- The fences a call is given. -/
def Call.fences : Call → List Handle
  | Call.vkWaitForFences fence => [fence]
  | Call.vkResetFences fence => [fence]
  | Call.vkQueueSubmit _ _ fence => [fence]
  | _ => []

/-- The semaphores a call is given. -/
def Call.semaphores : Call → List Handle
  | Call.vkAcquireNextImageKHR _ semaphore _ => [semaphore]
  | Call.vkQueueSubmit waitSemaphore _ _ => [waitSemaphore]
  | _ => []

/-- The command buffers a call is given. -/
def Call.command_buffers : Call → List Handle
  | Call.vkResetCommandBuffer c => [c]
  | Call.vkBeginCommandBuffer c _ => [c]
  | Call.vkCmdBeginRenderPass c _ _ _ _ => [c]
  | Call.vkCmdBindPipeline c _ => [c]
  | Call.vkCmdSetViewport c _ _ => [c]
  | Call.vkCmdSetScissor c _ _ => [c]
  | Call.vkCmdDraw c _ _ _ _ => [c]
  | Call.vkCmdEndRenderPass c => [c]
  | Call.vkEndCommandBuffer c _ => [c]
  | Call.vkQueueSubmit _ c _ => [c]
  | _ => []

/-! ## Slot cursor -/

theorem present_exited_iff (r : Renderer) (env : PresentEnv) :
    (present r env).exited = none ↔ env.begin_ok = true ∧ env.end_ok = true := by
  unfold present
  cases hb : env.begin_ok <;> cases he : env.end_ok <;> simp

theorem present_frame_index (r : Renderer) (env : PresentEnv)
    (h : (present r env).exited = none) :
    (present r env).renderer.m_frame_index = (r.m_frame_index + 1) % 2 := by
  obtain ⟨hb, he⟩ := (present_exited_iff r env).1 h
  unfold present
  simp only [hb, he, UINT32_SIZE, FRAMES_IN_FLIGHT]
  simp
  exact Nat.mod_mod_of_dvd _ (by norm_num)

theorem present_frames_frame_index (envs : List PresentEnv) :
    ∀ r : Renderer, r.m_frame_index < 2 → (present_frames envs r).exited = none →
      (present_frames envs r).renderer.m_frame_index = (r.m_frame_index + envs.length) % 2 := by
  induction envs with
  | nil =>
    intro r hr _
    simp only [present_frames, List.length_nil, Nat.add_zero]
    exact (Nat.mod_eq_of_lt hr).symm
  | cons env envs ih =>
    intro r hr h
    unfold present_frames at h ⊢
    cases hx : (present r env).exited with
    | some code => simp [hx] at h
    | none =>
      simp only [hx] at h ⊢
      have hstep := present_frame_index r env hx
      have h1 := ih (present r env).renderer (by rw [hstep]; exact Nat.mod_lt _ (by norm_num)) h
      rw [h1, hstep]
      simp only [List.length_cons]
      omega

/-- Claim C1. After `n` calls of `present()` without a fatal error on a renderer whose slot
cursor is 0, the cursor is `n mod FRAMES_IN_FLIGHT`; after 5 calls it is 1; and every single
`present()` that returns maps the cursor `c` to `(c + 1) mod 2`. -/
theorem present_cursor_round_robin (r : Renderer) (envs : List PresentEnv)
    (h0 : r.m_frame_index = 0) (hok : (present_frames envs r).exited = none) :
    (present_frames envs r).renderer.m_frame_index = envs.length % FRAMES_IN_FLIGHT ∧
    (envs.length = 5 → (present_frames envs r).renderer.m_frame_index = 1) ∧
    (∀ (q : Renderer) (env : PresentEnv), (present q env).exited = none →
      (present q env).renderer.m_frame_index = (q.m_frame_index + 1) % 2) := by
  have h := present_frames_frame_index envs r (by omega) hok
  rw [h0, Nat.zero_add] at h
  refine ⟨h, ?_, present_frame_index⟩
  intro h5
  rw [h, h5]

theorem present_cursor_round_robin_witness :
    sample_renderer.m_frame_index = 0 ∧
    (present_frames (List.replicate 5 good_present_env) sample_renderer).exited = none ∧
    (present_frames (List.replicate 5 good_present_env) sample_renderer).renderer.m_frame_index
      = 1 :=
  ⟨rfl, by decide,
    (present_cursor_round_robin sample_renderer (List.replicate 5 good_present_env) rfl
      (by decide)).2.1 (by decide)⟩

/-! ## Frames in flight -/

theorem present_m_fences (r : Renderer) (env : PresentEnv) :
    (present r env).renderer.m_fences = r.m_fences := by
  unfold present
  cases hb : env.begin_ok <;> cases he : env.end_ok <;> simp

theorem present_gpu_calls (r : Renderer) (env : PresentEnv) (g : Gpu)
    (h : (present r env).exited = none) :
    g.calls (present r env).trace =
      if g.signaled (r.m_fences.getD r.m_frame_index 0) = true then
        some { signaled := fun f =>
                 if f = r.m_fences.getD r.m_frame_index 0 then false else g.signaled f,
               in_flight := g.in_flight ++ [r.m_fences.getD r.m_frame_index 0] }
      else none := by
  obtain ⟨hb, he⟩ := (present_exited_iff r env).1 h
  unfold present
  simp only [hb, he]
  generalize r.m_fences.getD r.m_frame_index 0 = fence
  by_cases hs : g.signaled fence = true
  · simp [Gpu.calls, Gpu.call, hs]
  · simp [Gpu.calls, Gpu.call, hs]

theorem constructed_inv (s : System) (h : s.constructed) : s.Inv := by
  obtain ⟨h0, h1, _, h3⟩ := h
  exact ⟨by omega, h1, by simp [h3], by simp [h3], by simp [h3]⟩

theorem step_inv (s t : System) (a : Action) (hs : s.Inv) (h : s.step a = some t) : t.Inv := by
  cases a with
  | present env =>
    unfold System.step at h
    cases hx : (present s.renderer env).exited with
    | some code => simp [hx] at h
    | none =>
      simp only [hx, present_gpu_calls s.renderer env s.gpu hx] at h
      by_cases hsig : s.gpu.signaled (s.renderer.m_fences.getD s.renderer.m_frame_index 0) = true
      · simp only [hsig, if_true, Option.some.injEq] at h
        subst h
        have hmem : s.renderer.m_fences.getD s.renderer.m_frame_index 0 ∈ s.renderer.m_fences := by
          have hlt : s.renderer.m_frame_index < s.renderer.m_fences.length := by
            rw [hs.fences]; exact hs.cursor
          rw [List.getD_eq_getElem _ _ hlt]
          exact List.getElem_mem _
        have hnot := hs.idle _ hsig
        refine ⟨?_, ?_, ?_, ?_, ?_⟩
        · rw [present_frame_index _ _ hx]; exact Nat.mod_lt _ (by norm_num)
        · rw [present_m_fences]; exact hs.fences
        · intro f hf
          simp only [ite_eq_left_iff, Bool.not_eq_true] at hf
          by_cases hfe : f = s.renderer.m_fences.getD s.renderer.m_frame_index 0
          · simp [hfe] at hf
          · simp only [hfe, if_false] at hf
            simp only [List.mem_append, List.mem_singleton, not_or]
            exact ⟨hs.idle f hf, hfe⟩
        · simp only []
          rw [List.nodup_append]
          refine ⟨hs.nodup, List.nodup_singleton _, ?_⟩
          intro x hx1 hx2
          rw [List.mem_singleton] at hx2
          subst hx2
          exact hnot hx1
        · intro f hf
          rw [present_m_fences]
          simp only [List.mem_append, List.mem_singleton] at hf
          rcases hf with hf | hf
          · exact hs.known f hf
          · rw [hf]; exact hmem
      · rw [if_neg hsig] at h
        exact absurd h (by simp)
  | complete k =>
    unfold System.step Gpu.complete at h
    cases hk : s.gpu.in_flight[k]? with
    | none => simp [hk] at h
    | some fence =>
      simp only [hk, Option.some.injEq] at h
      subst h
      have hsub : s.gpu.in_flight.eraseIdx k ⊆ s.gpu.in_flight :=
        (List.eraseIdx_sublist _ _).subset
      refine ⟨hs.cursor, hs.fences, ?_, hs.nodup.sublist (List.eraseIdx_sublist _ _), ?_⟩
      · intro f hf hmem
        simp only [] at hf hmem
        by_cases hfe : f = fence
        · subst hfe
          rw [List.mem_eraseIdx_iff_getElem?] at hmem
          obtain ⟨i, hik, hi⟩ := hmem
          have hnd := List.nodup_iff_getElem?_ne_getElem?.1 hs.nodup
          have hklt : k < s.gpu.in_flight.length := by
            rcases List.getElem?_eq_some.1 hk with ⟨hlt, _⟩; exact hlt
          have hilt : i < s.gpu.in_flight.length := by
            rcases List.getElem?_eq_some.1 hi with ⟨hlt, _⟩; exact hlt
          rcases Nat.lt_or_gt_of_ne hik with hlt | hgt
          · exact hnd i k hlt hklt (by rw [hi, hk])
          · exact hnd k i hgt hilt (by rw [hi, hk])
        · simp only [hfe, if_false] at hf
          exact hs.idle f hf (hsub hmem)
      · intro f hf
        exact hs.known f (hsub hf)

theorem run_inv (acts : List Action) :
    ∀ s t : System, s.Inv → s.run acts = some t → t.Inv := by
  induction acts with
  | nil =>
    intro s t hs h
    simp only [System.run, Option.some.injEq] at h
    exact h ▸ hs
  | cons a acts ih =>
    intro s t hs h
    unfold System.run at h
    cases hstep : s.step a with
    | none => simp [hstep] at h
    | some s1 =>
      simp only [hstep] at h
      exact ih s1 t (step_inv s s1 a hs hstep) h

/-- Claim C2. In every state reached from the constructed renderer by `present()` calls
that return and by completions of submitted frames, each slot has at most one frame
submitted and not completed, and at most `FRAMES_IN_FLIGHT` frames are in flight. -/
theorem frames_in_flight_bounded (s0 s : System) (acts : List Action)
    (h0 : s0.constructed) (hrun : s0.run acts = some s) :
    (∀ slot, slot < FRAMES_IN_FLIGHT → s.in_flight_of slot ≤ 1) ∧
    s.gpu.in_flight.length ≤ FRAMES_IN_FLIGHT := by
  have hinv := run_inv acts s0 s (constructed_inv s0 h0) hrun
  constructor
  · intro slot _
    unfold System.in_flight_of
    have hc := List.nodup_iff_count_le_one.1 hinv.nodup (s.renderer.m_fences.getD slot 0)
    rw [List.count_eq_countP, List.countP_eq_length_filter] at hc
    convert hc using 3
  · have hlen := (hinv.nodup.subperm hinv.known).length_le
    rw [hinv.fences] at hlen
    exact hlen

theorem frames_in_flight_bounded_witness :
    sample_system.constructed ∧
    ∃ s, sample_system.run sample_actions = some s ∧
      s.gpu.in_flight = [10, 9] ∧
      (∀ slot, slot < FRAMES_IN_FLIGHT → s.in_flight_of slot ≤ 1) ∧
      s.gpu.in_flight.length ≤ FRAMES_IN_FLIGHT :=
  have hc : sample_system.constructed :=
    ⟨rfl, rfl, fun _ _ => rfl, rfl⟩
  ⟨hc, _, rfl, rfl, frames_in_flight_bounded sample_system _ sample_actions hc rfl⟩

/-! ## Order of the calls of `present` -/

theorem present_trace_start (r : Renderer) (env : PresentEnv) :
    ∃ rest, (present r env).trace =
      Call.vkWaitForFences (r.m_fences.getD r.m_frame_index 0) ::
      Call.vkResetFences (r.m_fences.getD r.m_frame_index 0) ::
      Call.vkResetCommandBuffer (r.m_command_buffers.getD r.m_frame_index 0) :: rest := by
  unfold present
  cases hb : env.begin_ok <;> cases he : env.end_ok <;> simp

/-- Claim C3. On every path through `present()` the first call is the wait on the fence of
the active slot; the fence and the command buffer of that slot are reset on every path;
and every call that resets the fence, or resets, begins, records into or ends the command
buffer, comes after that wait. -/
theorem present_waits_before_reuse (r : Renderer) (env : PresentEnv) :
    (present r env).trace.head? =
      some (Call.vkWaitForFences (r.m_fences.getD r.m_frame_index 0)) ∧
    Call.vkResetFences (r.m_fences.getD r.m_frame_index 0) ∈ (present r env).trace ∧
    Call.vkResetCommandBuffer (r.m_command_buffers.getD r.m_frame_index 0) ∈
      (present r env).trace ∧
    ∀ (i : Nat) (c : Call), (present r env).trace[i]? = some c →
      (c = Call.vkResetFences (r.m_fences.getD r.m_frame_index 0) ∨
        c.rerecords (r.m_command_buffers.getD r.m_frame_index 0) = true) →
      ∃ j, j < i ∧ (present r env).trace[j]? =
        some (Call.vkWaitForFences (r.m_fences.getD r.m_frame_index 0)) := by
  obtain ⟨rest, hrest⟩ := present_trace_start r env
  rw [hrest]
  refine ⟨rfl, by simp, by simp, ?_⟩
  intro i c hi hc
  cases i with
  | zero =>
    simp only [List.getElem?_cons_zero, Option.some.injEq] at hi
    subst hi
    rcases hc with hc | hc
    · cases hc
    · simp [Call.rerecords] at hc
  | succ n => exact ⟨0, Nat.succ_pos n, rfl⟩

/-! ## The swapchain rebuild -/

theorem resize_loop_fields (env : ResizeEnv) (w h : Nat) :
    ∀ (todo i : Nat) (r : Renderer),
      (resize_loop env w h todo i r).renderer.m_swapchain_images = r.m_swapchain_images ∧
      (resize_loop env w h todo i r).renderer.m_render_pass = r.m_render_pass ∧
      (resize_loop env w h todo i r).renderer.m_swapchain = r.m_swapchain ∧
      (resize_loop env w h todo i r).renderer.m_swapchain_width = r.m_swapchain_width ∧
      (resize_loop env w h todo i r).renderer.m_swapchain_height = r.m_swapchain_height ∧
      (resize_loop env w h todo i r).renderer.m_swapchain_image_views.length =
        r.m_swapchain_image_views.length ∧
      (resize_loop env w h todo i r).renderer.m_swapchain_framebuffers.length =
        r.m_swapchain_framebuffers.length := by
  intro todo
  induction todo with
  | zero => intro i r; simp [resize_loop]
  | succ todo ih =>
    intro i r
    unfold resize_loop
    cases hv : env.image_view i with
    | none => simp
    | some view =>
      cases hf : env.framebuffer i with
      | none => simp
      | some fb =>
        simp only []
        obtain ⟨h1, h2, h3, h4, h5, h6, h7⟩ := ih (i + 1)
          { r with
            m_swapchain_image_views := r.m_swapchain_image_views.set i view
            m_swapchain_framebuffers := r.m_swapchain_framebuffers.set i fb }
        refine ⟨h1, h2, h3, h4, h5, ?_, ?_⟩
        · rw [h6]; simp
        · rw [h7]; simp

theorem resize_loop_below (env : ResizeEnv) (w h : Nat) :
    ∀ (todo i : Nat) (r : Renderer) (j : Nat), j < i →
      (resize_loop env w h todo i r).renderer.m_swapchain_image_views[j]? =
        r.m_swapchain_image_views[j]? ∧
      (resize_loop env w h todo i r).renderer.m_swapchain_framebuffers[j]? =
        r.m_swapchain_framebuffers[j]? := by
  intro todo
  induction todo with
  | zero => intro i r j _; simp [resize_loop]
  | succ todo ih =>
    intro i r j hj
    unfold resize_loop
    cases hv : env.image_view i with
    | none => simp
    | some view =>
      cases hf : env.framebuffer i with
      | none =>
        simp only [and_true]
        rw [List.getElem?_set_ne (by omega)]
      | some fb =>
        simp only []
        obtain ⟨h1, h2⟩ := ih (i + 1)
          { r with
            m_swapchain_image_views := r.m_swapchain_image_views.set i view
            m_swapchain_framebuffers := r.m_swapchain_framebuffers.set i fb } j (by omega)
        rw [h1, h2]
        simp only []
        rw [List.getElem?_set_ne (by omega), List.getElem?_set_ne (by omega)]
        exact ⟨rfl, rfl⟩

theorem resize_loop_framebuffer_extent (env : ResizeEnv) (w h : Nat) :
    ∀ (todo i : Nat) (r : Renderer) (rp a w1 h1 : Nat) (x : Option Handle),
      Call.vkCreateFramebuffer rp a w1 h1 x ∈ (resize_loop env w h todo i r).trace →
      w1 = w ∧ h1 = h := by
  intro todo
  induction todo with
  | zero => intro i r rp a w1 h1 x hx; simp [resize_loop] at hx
  | succ todo ih =>
    intro i r rp a w1 h1 x hx
    unfold resize_loop at hx
    cases hv : env.image_view i with
    | none => simp [hv, fatal_error, message_box, exit_program] at hx
    | some view =>
      cases hf : env.framebuffer i with
      | none =>
        simp [hv, hf, fatal_error, message_box, exit_program] at hx
        exact ⟨hx.2.2.1, hx.2.2.2.1⟩
      | some fb =>
        simp only [hv, hf, List.cons_append, List.nil_append, List.mem_cons,
          Call.vkCreateFramebuffer.injEq] at hx
        rcases hx with hx | hx | hx
        · cases hx
        · exact ⟨hx.2.2.1, hx.2.2.2.1⟩
        · exact ih _ _ rp a w1 h1 x hx

theorem resize_loop_created (env : ResizeEnv) (w h : Nat) :
    ∀ (todo i : Nat) (r : Renderer),
      (resize_loop env w h todo i r).exited = none →
      i + todo ≤ r.m_swapchain_image_views.length →
      i + todo ≤ r.m_swapchain_framebuffers.length →
      ∀ j, i ≤ j → j < i + todo →
        ∃ view fb,
          env.image_view j = some view ∧ env.framebuffer j = some fb ∧
          (resize_loop env w h todo i r).renderer.m_swapchain_image_views[j]? = some view ∧
          (resize_loop env w h todo i r).renderer.m_swapchain_framebuffers[j]? = some fb ∧
          Call.vkCreateImageView (r.m_swapchain_images.getD j 0) (some view) ∈
            (resize_loop env w h todo i r).trace ∧
          Call.vkCreateFramebuffer r.m_render_pass view w h (some fb) ∈
            (resize_loop env w h todo i r).trace := by
  intro todo
  induction todo with
  | zero => intro i r _ _ _ j h1 h2; omega
  | succ todo ih =>
    intro i r hok hlv hlf j hij hjt
    unfold resize_loop at hok ⊢
    cases hv : env.image_view i with
    | none => simp [hv] at hok
    | some view =>
      cases hf : env.framebuffer i with
      | none => simp [hv, hf] at hok
      | some fb =>
        simp only [hv, hf] at hok ⊢
        have hatt : (r.m_swapchain_image_views.set i view).getD i 0 = view := by
          rw [List.getD_eq_getElem _ _ (by rw [List.length_set]; omega)]
          simp
        rw [hatt]
        rcases Nat.eq_or_lt_of_le hij with heq | hlt
        · subst heq
          obtain ⟨h1, h2⟩ := resize_loop_below env w h todo (i + 1)
            { r with
              m_swapchain_image_views := r.m_swapchain_image_views.set i view
              m_swapchain_framebuffers := r.m_swapchain_framebuffers.set i fb } i (by omega)
          refine ⟨view, fb, hv, hf, ?_, ?_, by simp, by simp⟩
          · rw [h1]; simp only []
            rw [List.getElem?_set_self (by omega)]
          · rw [h2]; simp only []
            rw [List.getElem?_set_self (by omega)]
        · obtain ⟨v1, f1, e1, e2, h1, h2, h3, h4⟩ := ih (i + 1)
            { r with
              m_swapchain_image_views := r.m_swapchain_image_views.set i view
              m_swapchain_framebuffers := r.m_swapchain_framebuffers.set i fb } hok
            (by simp only [List.length_set]; omega) (by simp only [List.length_set]; omega)
            j (by omega) (by omega)
          exact ⟨v1, f1, e1, e2, h1, h2, by simp only [List.mem_append]; exact Or.inr h3,
            by simp only [List.mem_append]; exact Or.inr h4⟩

theorem vec_resize_length (v : List Handle) (n : Nat) : (vec_resize v n).length = n := by
  simp only [vec_resize, List.length_append, List.length_take, List.length_replicate]
  omega

theorem vec_fill_eq (v src : List Handle) (h : v.length = src.length) : vec_fill v src = src := by
  unfold vec_fill
  rw [h, List.take_length, ← h, List.drop_length, List.append_nil]

theorem resize_of_swapchain (r : Renderer) (w h : Nat) (env : ResizeEnv) (sc : Handle)
    (hsc : env.swapchain = some sc) :
    resize r w h env =
      ⟨(resize_loop env w h env.images.length 0 (resize_prepared r w h env sc)).renderer,
        resize_head_calls r w h env sc ++
          (resize_loop env w h env.images.length 0 (resize_prepared r w h env sc)).trace,
        (resize_loop env w h env.images.length 0 (resize_prepared r w h env sc)).exited⟩ := by
  unfold resize
  simp only [hsc, resize_prepared, resize_head_calls, destroy_old]

theorem resize_of_no_swapchain (r : Renderer) (w h : Nat) (env : ResizeEnv)
    (hsc : env.swapchain = none) :
    resize r w h env =
      ⟨{ r with m_swapchain_width := w, m_swapchain_height := h },
        [Call.vkDeviceWaitIdle] ++ destroy_old r ++
          [Call.vkCreateSwapchainKHR r.m_surface w h r.m_swapchain none] ++
          fatal_error "Failed to create Vulkan swapchain." [],
        some 1⟩ := by
  unfold resize
  simp only [hsc, destroy_old]

theorem resize_ok_swapchain (r : Renderer) (w h : Nat) (env : ResizeEnv)
    (hok : (resize r w h env).exited = none) : ∃ sc, env.swapchain = some sc := by
  cases hsc : env.swapchain with
  | none => rw [resize_of_no_swapchain r w h env hsc] at hok; simp at hok
  | some sc => exact ⟨sc, rfl⟩

theorem resize_aligned_core (r : Renderer) (w h : Nat) (env : ResizeEnv)
    (hok : (resize r w h env).exited = none) :
    (resize r w h env).renderer.m_swapchain_images.length = env.images.length ∧
    (resize r w h env).renderer.m_swapchain_image_views.length = env.images.length ∧
    (resize r w h env).renderer.m_swapchain_framebuffers.length = env.images.length ∧
    (resize r w h env).renderer.m_swapchain_images = env.images ∧
    (∀ i, i < env.images.length → ∃ image view fb,
      (resize r w h env).renderer.m_swapchain_images[i]? = some image ∧
      (resize r w h env).renderer.m_swapchain_image_views[i]? = some view ∧
      (resize r w h env).renderer.m_swapchain_framebuffers[i]? = some fb ∧
      Call.vkCreateImageView image (some view) ∈ (resize r w h env).trace ∧
      Call.vkCreateFramebuffer r.m_render_pass view w h (some fb) ∈ (resize r w h env).trace) ∧
    (∀ (rp a w1 h1 : Nat) (x : Option Handle),
      Call.vkCreateFramebuffer rp a w1 h1 x ∈ (resize r w h env).trace → w1 = w ∧ h1 = h) := by
  obtain ⟨sc, hsc⟩ := resize_ok_swapchain r w h env hok
  rw [resize_of_swapchain r w h env sc hsc] at hok ⊢
  simp only [] at hok ⊢
  obtain ⟨f1, f2, _, _, _, f6, f7⟩ :=
    resize_loop_fields env w h env.images.length 0 (resize_prepared r w h env sc)
  have himg : (resize_prepared r w h env sc).m_swapchain_images = env.images :=
    vec_fill_eq _ _ (vec_resize_length _ _)
  have hlv : (resize_prepared r w h env sc).m_swapchain_image_views.length = env.images.length :=
    vec_resize_length _ _
  have hlf : (resize_prepared r w h env sc).m_swapchain_framebuffers.length = env.images.length :=
    vec_resize_length _ _
  refine ⟨by rw [f1, himg], by rw [f6, hlv], by rw [f7, hlf], by rw [f1, himg], ?_, ?_⟩
  · intro i hi
    obtain ⟨view, fb, _, _, h1, h2, h3, h4⟩ :=
      resize_loop_created env w h env.images.length 0 (resize_prepared r w h env sc) hok
        (by omega) (by omega) i (Nat.zero_le i) (by omega)
    refine ⟨env.images[i], view, fb, ?_, h1, h2, ?_, ?_⟩
    · rw [f1, himg]; exact List.getElem?_eq_getElem hi
    · rw [himg, List.getD_eq_getElem _ _ hi] at h3
      exact List.mem_append_right _ h3
    · exact List.mem_append_right _ h4
  · intro rp a w1 h1 x hx
    rw [List.mem_append] at hx
    rcases hx with hx | hx
    · exfalso
      unfold resize_head_calls destroy_old at hx
      split_ifs at hx <;> simp at hx
    · exact resize_loop_framebuffer_extent env w h _ _ _ rp a w1 h1 x hx

/-- Claim C4. After `resize(w, h)` returns without a fatal error, with `k` the number of
images the driver reports: the image, view and framebuffer sequences have length `k`, the
images are the driver's, view `i` was created from image `i` and framebuffer `i` from view
`i`, and every framebuffer was created with width `w` and height `h`. This holds for all
`w` and `h`, the positive ones included. -/
theorem resize_sequences_aligned (r : Renderer) (w h : Nat) (env : ResizeEnv)
    (hok : (resize r w h env).exited = none) :
    (resize r w h env).renderer.m_swapchain_images.length = env.images.length ∧
    (resize r w h env).renderer.m_swapchain_image_views.length = env.images.length ∧
    (resize r w h env).renderer.m_swapchain_framebuffers.length = env.images.length ∧
    (resize r w h env).renderer.m_swapchain_images = env.images ∧
    (∀ i, i < env.images.length → ∃ image view fb,
      (resize r w h env).renderer.m_swapchain_images[i]? = some image ∧
      (resize r w h env).renderer.m_swapchain_image_views[i]? = some view ∧
      (resize r w h env).renderer.m_swapchain_framebuffers[i]? = some fb ∧
      Call.vkCreateImageView image (some view) ∈ (resize r w h env).trace ∧
      Call.vkCreateFramebuffer r.m_render_pass view w h (some fb) ∈ (resize r w h env).trace) ∧
    (∀ (rp a w1 h1 : Nat) (x : Option Handle),
      Call.vkCreateFramebuffer rp a w1 h1 x ∈ (resize r w h env).trace → w1 = w ∧ h1 = h) :=
  resize_aligned_core r w h env hok

theorem resize_sequences_aligned_witness :
    (resize sample_renderer 1024 768 (good_resize_env [40, 41, 42])).exited = none ∧
    (resize sample_renderer 1024 768 (good_resize_env [40, 41, 42])).renderer.m_swapchain_image_views
      = [100, 101, 102] ∧
    (resize sample_renderer 1024 768
      (good_resize_env [40, 41, 42])).renderer.m_swapchain_framebuffers.length = 3 :=
  ⟨by decide, by decide,
    (resize_sequences_aligned sample_renderer 1024 768 (good_resize_env [40, 41, 42])
      (by decide)).2.2.1⟩

theorem fatal_error_destroys_swapchain (fmt : String) (args : List String) :
    ∀ c ∈ fatal_error fmt args, c.destroys_swapchain = false := by
  intro c hc
  simp only [fatal_error, message_box, exit_program, List.cons_append, List.nil_append,
    List.mem_cons, List.mem_singleton, List.not_mem_nil, or_false] at hc
  rcases hc with hc | hc <;> subst hc <;> rfl

theorem destroy_old_destroys_swapchain (r : Renderer) :
    ∀ c ∈ destroy_old r, c.destroys_swapchain = false := by
  intro c hc
  unfold destroy_old at hc
  split_ifs at hc
  · simp only [List.mem_append, List.mem_map] at hc
    rcases hc with ⟨a, _, ha⟩ | ⟨a, _, ha⟩ <;> subst ha <;> rfl
  · simp at hc

theorem resize_loop_destroys_swapchain (env : ResizeEnv) (w h : Nat) :
    ∀ (todo i : Nat) (r : Renderer),
      ∀ c ∈ (resize_loop env w h todo i r).trace, c.destroys_swapchain = false := by
  intro todo
  induction todo with
  | zero => intro i r c hc; simp [resize_loop] at hc
  | succ todo ih =>
    intro i r c hc
    unfold resize_loop at hc
    cases hv : env.image_view i with
    | none =>
      simp only [hv, List.mem_append, List.mem_singleton] at hc
      rcases hc with hc | hc
      · subst hc; rfl
      · exact fatal_error_destroys_swapchain _ _ c hc
    | some view =>
      cases hf : env.framebuffer i with
      | none =>
        simp only [hv, hf, List.mem_append, List.mem_cons, List.mem_singleton,
          List.not_mem_nil, or_false] at hc
        rcases hc with (hc | hc) | hc
        · subst hc; rfl
        · subst hc; rfl
        · exact fatal_error_destroys_swapchain _ _ c hc
      | some fb =>
        simp only [hv, hf, List.mem_append, List.mem_cons, List.mem_singleton,
          List.not_mem_nil, or_false] at hc
        rcases hc with (hc | hc) | hc
        · subst hc; rfl
        · subst hc; rfl
        · exact ih _ _ c hc

/-- Claim C5. When `resize()` runs on a renderer that holds a swapchain: if
`vkCreateSwapchainKHR` returns the replacement, the trace is some calls without any
swapchain destroy, then that successful creation, then the destroy of the previous
swapchain, then calls without any swapchain destroy (so the previous swapchain is destroyed
exactly once, and after the creation succeeded); if the creation fails, the run ends in the
fatal error and no swapchain is destroyed. -/
theorem resize_destroys_old_swapchain_once (r : Renderer) (w h : Nat) (env : ResizeEnv)
    (hold : r.m_swapchain ≠ 0) :
    (∀ sc, env.swapchain = some sc →
      (∃ before after, (resize r w h env).trace =
          before ++ Call.vkCreateSwapchainKHR r.m_surface w h r.m_swapchain (some sc) ::
            Call.vkDestroySwapchainKHR r.m_swapchain :: after ∧
        (∀ c ∈ before, c.destroys_swapchain = false) ∧
        (∀ c ∈ after, c.destroys_swapchain = false)) ∧
      (resize r w h env).trace.count (Call.vkDestroySwapchainKHR r.m_swapchain) = 1) ∧
    (env.swapchain = none →
      (resize r w h env).exited = some 1 ∧
      ∀ c ∈ (resize r w h env).trace, c.destroys_swapchain = false) := by
  constructor
  · intro sc hsc
    have hdecomp : ∃ before after, (resize r w h env).trace =
          before ++ Call.vkCreateSwapchainKHR r.m_surface w h r.m_swapchain (some sc) ::
            Call.vkDestroySwapchainKHR r.m_swapchain :: after ∧
        (∀ c ∈ before, c.destroys_swapchain = false) ∧
        (∀ c ∈ after, c.destroys_swapchain = false) := by
      refine ⟨[Call.vkDeviceWaitIdle] ++ destroy_old r,
        [Call.vkGetSwapchainImagesKHR sc false env.images.length,
          Call.vkGetSwapchainImagesKHR sc true env.images.length] ++
          (resize_loop env w h env.images.length 0 (resize_prepared r w h env sc)).trace,
        ?_, ?_, ?_⟩
      · rw [resize_of_swapchain r w h env sc hsc]
        simp [resize_head_calls, hold]
      · intro c hc
        simp only [List.mem_append, List.mem_singleton] at hc
        rcases hc with hc | hc
        · subst hc; rfl
        · exact destroy_old_destroys_swapchain r c hc
      · intro c hc
        simp only [List.mem_append, List.mem_cons, List.mem_singleton, List.not_mem_nil,
          or_false] at hc
        rcases hc with (hc | hc) | hc
        · subst hc; rfl
        · subst hc; rfl
        · exact resize_loop_destroys_swapchain env w h _ _ _ c hc
    refine ⟨hdecomp, ?_⟩
    obtain ⟨before, after, htrace, hb, ha⟩ := hdecomp
    rw [htrace]
    have hb0 : before.count (Call.vkDestroySwapchainKHR r.m_swapchain) = 0 := by
      rw [List.count_eq_zero]
      intro hmem
      exact absurd (hb _ hmem) (by simp [Call.destroys_swapchain])
    have ha0 : after.count (Call.vkDestroySwapchainKHR r.m_swapchain) = 0 := by
      rw [List.count_eq_zero]
      intro hmem
      exact absurd (ha _ hmem) (by simp [Call.destroys_swapchain])
    rw [List.count_append, hb0, List.count_cons, List.count_cons, ha0]
    simp
  · intro hsc
    rw [resize_of_no_swapchain r w h env hsc]
    refine ⟨rfl, ?_⟩
    intro c hc
    simp only [List.mem_append, List.mem_singleton] at hc
    rcases hc with ((hc | hc) | hc) | hc
    · subst hc; rfl
    · exact destroy_old_destroys_swapchain r c hc
    · subst hc; rfl
    · exact fatal_error_destroys_swapchain _ _ c hc

theorem resize_destroys_old_swapchain_once_witness :
    sample_renderer.m_swapchain ≠ 0 ∧
    (resize sample_renderer 1024 768 (good_resize_env [40, 41])).trace.count
      (Call.vkDestroySwapchainKHR sample_renderer.m_swapchain) = 1 ∧
    (resize sample_renderer 1024 768 no_swapchain_env).exited = some 1 :=
  ⟨by decide,
    ((resize_destroys_old_swapchain_once sample_renderer 1024 768 (good_resize_env [40, 41])
      (by decide)).1 20 rfl).2,
    ((resize_destroys_old_swapchain_once sample_renderer 1024 768 no_swapchain_env
      (by decide)).2 rfl).1⟩

/-- Claim C6 fails as stated. With a swapchain whose creation fails the run of `resize` on the sample renderer ends
in the fatal error, and by then the old image views `5`, `6` and the old framebuffers `7`,
`8` have been destroyed: the failure does not come before every destruction of the old
set. With a view whose creation fails the old swapchain `2` has been destroyed as well. -/
theorem resize_not_atomic :
    (resize sample_renderer 1024 768 no_swapchain_env).exited = some 1 ∧
    sample_renderer.m_swapchain_image_views = [5, 6] ∧
    sample_renderer.m_swapchain_framebuffers = [7, 8] ∧
    (resize sample_renderer 1024 768 no_swapchain_env).trace =
      [Call.vkDeviceWaitIdle, Call.vkDestroyImageView 5, Call.vkDestroyImageView 6,
        Call.vkDestroyFramebuffer 7, Call.vkDestroyFramebuffer 8,
        Call.vkCreateSwapchainKHR 1 1024 768 2 none,
        Call.MessageBoxA "Error" "Failed to create Vulkan swapchain.", Call.ExitProcess 1] ∧
    (resize sample_renderer 1024 768 no_view_env).exited = some 1 ∧
    Call.vkDestroySwapchainKHR sample_renderer.m_swapchain ∈
      (resize sample_renderer 1024 768 no_view_env).trace := by
  decide

/-- Claim C6, as the code has it. On a renderer that holds image views:
when `resize()` returns, the swapchain, the images, the views and the framebuffers it holds
are the ones the driver handed back during this call; when `vkCreateSwapchainKHR` fails, the
run ends in the fatal error with status 1 after every old image view and every old
framebuffer has been destroyed, and without the old swapchain being destroyed. -/
theorem resize_replaces_surface (r : Renderer) (w h : Nat) (env : ResizeEnv)
    (hviews : r.m_swapchain_image_views ≠ []) :
    ((resize r w h env).exited = none →
      env.swapchain = some (resize r w h env).renderer.m_swapchain ∧
      (resize r w h env).renderer.m_swapchain_images = env.images ∧
      (resize r w h env).renderer.m_swapchain_image_views.length = env.images.length ∧
      (resize r w h env).renderer.m_swapchain_framebuffers.length = env.images.length ∧
      ∀ i, i < env.images.length →
        (resize r w h env).renderer.m_swapchain_image_views[i]? = env.image_view i ∧
        (resize r w h env).renderer.m_swapchain_framebuffers[i]? = env.framebuffer i) ∧
    (env.swapchain = none →
      (resize r w h env).exited = some 1 ∧
      (∃ before, (resize r w h env).trace =
        before ++ Call.vkCreateSwapchainKHR r.m_surface w h r.m_swapchain none ::
          fatal_error "Failed to create Vulkan swapchain." [] ∧
        (∀ view ∈ r.m_swapchain_image_views, Call.vkDestroyImageView view ∈ before) ∧
        (∀ fb ∈ r.m_swapchain_framebuffers, Call.vkDestroyFramebuffer fb ∈ before)) ∧
      Call.vkDestroySwapchainKHR r.m_swapchain ∉ (resize r w h env).trace) := by
  constructor
  · intro hok
    obtain ⟨sc, hsc⟩ := resize_ok_swapchain r w h env hok
    obtain ⟨_, h2, h3, h4, _, _⟩ := resize_aligned_core r w h env hok
    rw [resize_of_swapchain r w h env sc hsc] at hok ⊢
    simp only [] at hok ⊢
    obtain ⟨_, _, f3, _, _, _, _⟩ :=
      resize_loop_fields env w h env.images.length 0 (resize_prepared r w h env sc)
    have hlv : (resize_prepared r w h env sc).m_swapchain_image_views.length
        = env.images.length := vec_resize_length _ _
    have hlf : (resize_prepared r w h env sc).m_swapchain_framebuffers.length
        = env.images.length := vec_resize_length _ _
    rw [resize_of_swapchain r w h env sc hsc] at h2 h3 h4
    refine ⟨by rw [f3, hsc]; rfl, h4, h2, h3, ?_⟩
    intro i hi
    obtain ⟨view, fb, e1, e2, h1, h2, _, _⟩ :=
      resize_loop_created env w h env.images.length 0 (resize_prepared r w h env sc) hok
        (by omega) (by omega) i (Nat.zero_le i) (by omega)
    rw [h1, h2, e1, e2]
    exact ⟨rfl, rfl⟩
  · intro hsc
    have hlen : r.m_swapchain_image_views.length ≠ 0 := by
      intro h0; exact hviews (List.length_eq_zero.1 h0)
    rw [resize_of_no_swapchain r w h env hsc]
    refine ⟨rfl, ⟨[Call.vkDeviceWaitIdle] ++ destroy_old r, by simp, ?_, ?_⟩, ?_⟩
    · intro view hview
      simp only [destroy_old, hlen, ne_eq, not_false_eq_true, if_true, List.mem_append,
        List.mem_map]
      exact Or.inr (Or.inl ⟨view, hview, rfl⟩)
    · intro fb hfb
      simp only [destroy_old, hlen, ne_eq, not_false_eq_true, if_true, List.mem_append,
        List.mem_map]
      exact Or.inr (Or.inr ⟨fb, hfb, rfl⟩)
    · intro hmem
      have hno : ∀ c ∈ [Call.vkDeviceWaitIdle] ++ destroy_old r ++
          [Call.vkCreateSwapchainKHR r.m_surface w h r.m_swapchain none] ++
          fatal_error "Failed to create Vulkan swapchain." [], c.destroys_swapchain = false := by
        intro c hc
        simp only [List.mem_append, List.mem_singleton] at hc
        rcases hc with ((hc | hc) | hc) | hc
        · subst hc; rfl
        · exact destroy_old_destroys_swapchain r c hc
        · subst hc; rfl
        · exact fatal_error_destroys_swapchain _ _ c hc
      exact absurd (hno _ hmem) (by simp [Call.destroys_swapchain])

theorem resize_replaces_surface_witness :
    sample_renderer.m_swapchain_image_views ≠ [] ∧
    (resize sample_renderer 1024 768 (good_resize_env [40, 41])).exited = none ∧
    (resize sample_renderer 1024 768 (good_resize_env [40, 41])).renderer.m_swapchain_images
      = [40, 41] ∧
    (resize sample_renderer 1024 768 no_swapchain_env).exited = some 1 :=
  ⟨by decide, by decide,
    ((resize_replaces_surface sample_renderer 1024 768 (good_resize_env [40, 41])
      (by decide)).1 (by decide)).2.1,
    ((resize_replaces_surface sample_renderer 1024 768 no_swapchain_env
      (by decide)).2 rfl).1⟩

/-! ## Resizes to a zero dimension -/

/-- Claim C7. In an iteration of the main loop whose events are not closed and carry a
resize with a zero width or a zero height, no member function of the renderer is called
(`resize` in particular), no call reaches the driver, the renderer (swapchain, images,
views, framebuffers, stored width and height) is left as it was, and the loop goes on. -/
theorem main_loop_ignores_zero_resize (e : Events) (r : Renderer) (renv : ResizeEnv)
    (penv : PresentEnv) (w h : Nat) (hclosed : e.closed = false)
    (hresize : e.resize = some (w, h)) (hzero : w = 0 ∨ h = 0) :
    (∀ w1 h1, Method.resize w1 h1 ∉ (main_iteration e r renv penv).invoked) ∧
    (main_iteration e r renv penv).invoked = [] ∧
    (main_iteration e r renv penv).trace = [] ∧
    (main_iteration e r renv penv).renderer = r ∧
    (main_iteration e r renv penv).exited = none ∧
    (main_iteration e r renv penv).left_loop = false := by
  unfold main_iteration
  simp [hclosed, hresize, hzero]

theorem main_loop_ignores_zero_resize_witness :
    (main_iteration ⟨false, some (0, 600)⟩ sample_renderer (good_resize_env [40, 41])
      good_present_env).renderer = sample_renderer :=
  (main_loop_ignores_zero_resize ⟨false, some (0, 600)⟩ sample_renderer
    (good_resize_env [40, 41]) good_present_env 0 600 rfl rfl (Or.inl rfl)).2.2.2.1

/-- Claim C8 fails as stated. The call `resize(0, 600)` on the sample renderer, with a driver that accepts it, is not a
no-op: it reaches the driver, and it leaves a renderer with stored width 0, another
swapchain and other image views and framebuffers. -/
theorem resize_zero_not_noop :
    (resize sample_renderer 0 600 (good_resize_env [40, 41])).exited = none ∧
    (resize sample_renderer 0 600 (good_resize_env [40, 41])).renderer ≠ sample_renderer ∧
    sample_renderer.m_swapchain_width = 800 ∧
    (resize sample_renderer 0 600 (good_resize_env [40, 41])).renderer.m_swapchain_width = 0 ∧
    sample_renderer.m_swapchain = 2 ∧
    (resize sample_renderer 0 600 (good_resize_env [40, 41])).renderer.m_swapchain = 20 ∧
    (resize sample_renderer 0 600 (good_resize_env [40, 41])).trace =
      [Call.vkDeviceWaitIdle, Call.vkDestroyImageView 5, Call.vkDestroyImageView 6,
        Call.vkDestroyFramebuffer 7, Call.vkDestroyFramebuffer 8,
        Call.vkCreateSwapchainKHR 1 0 600 2 (some 20), Call.vkDestroySwapchainKHR 2,
        Call.vkGetSwapchainImagesKHR 20 false 2, Call.vkGetSwapchainImagesKHR 20 true 2,
        Call.vkCreateImageView 40 (some 100), Call.vkCreateFramebuffer 11 100 0 600 (some 200),
        Call.vkCreateImageView 41 (some 101),
        Call.vkCreateFramebuffer 11 101 0 600 (some 201)] := by
  decide

theorem resize_stores_extent (r : Renderer) (w h : Nat) (env : ResizeEnv) :
    (resize r w h env).renderer.m_swapchain_width = w ∧
    (resize r w h env).renderer.m_swapchain_height = h := by
  cases hsc : env.swapchain with
  | none => rw [resize_of_no_swapchain r w h env hsc]; exact ⟨rfl, rfl⟩
  | some sc =>
    rw [resize_of_swapchain r w h env sc hsc]
    obtain ⟨_, _, _, f4, f5, _, _⟩ :=
      resize_loop_fields env w h env.images.length 0 (resize_prepared r w h env sc)
    exact ⟨f4, f5⟩

/-- Claim C8, as the code has it. The function `Renderer::resize(w, h)` has no test for a
zero dimension: with `w = 0` or `h = 0` it stores `w` and `h` as the swapchain width and
height (so a zero is stored), waits for the device to be idle first, and asks the driver for
a swapchain of extent `(w, h)` that replaces the one held. -/
theorem resize_zero_rebuilds (r : Renderer) (w h : Nat) (env : ResizeEnv)
    (hzero : w = 0 ∨ h = 0) :
    (resize r w h env).renderer.m_swapchain_width = w ∧
    (resize r w h env).renderer.m_swapchain_height = h ∧
    ((resize r w h env).renderer.m_swapchain_width = 0 ∨
      (resize r w h env).renderer.m_swapchain_height = 0) ∧
    (resize r w h env).trace.head? = some Call.vkDeviceWaitIdle ∧
    Call.vkCreateSwapchainKHR r.m_surface w h r.m_swapchain env.swapchain ∈
      (resize r w h env).trace := by
  obtain ⟨hw, hh⟩ := resize_stores_extent r w h env
  refine ⟨hw, hh, ?_, ?_, ?_⟩
  · rw [hw, hh]; exact hzero
  · cases hsc : env.swapchain with
    | none => rw [resize_of_no_swapchain r w h env hsc]; rfl
    | some sc => rw [resize_of_swapchain r w h env sc hsc]; rfl
  · cases hsc : env.swapchain with
    | none => rw [resize_of_no_swapchain r w h env hsc]; simp
    | some sc => rw [resize_of_swapchain r w h env sc hsc]; simp [resize_head_calls]

theorem resize_zero_rebuilds_witness :
    (0 = 0 ∨ 600 = 0) ∧
    (resize sample_renderer 0 600 (good_resize_env [40, 41])).renderer.m_swapchain_width = 0 :=
  ⟨Or.inl rfl,
    (resize_zero_rebuilds sample_renderer 0 600 (good_resize_env [40, 41]) (Or.inl rfl)).1⟩

/-! ## The extent recorded after a resize -/

theorem to_float_exact (x : Nat) (hx : x ≤ 2 ^ 24) : to_float x = x := by
  rcases Nat.lt_or_eq_of_le hx with hlt | heq
  · have hs : float_shift 32 x = 0 := by
      show (if x < 2 ^ 24 then 0 else 1 + float_shift 31 (x / 2)) = 0
      rw [if_pos hlt]
    unfold to_float
    simp [hs, Nat.mod_one]
  · subst heq
    decide

/-- Claim C9 fails as stated. After `resize(16777217, 768)` succeeds on the sample renderer, the next `present()`
records a viewport of width 16777216, the `float` nearest to the stored width, while the
scissor has width 16777217. -/
theorem viewport_width_rounded :
    (resize sample_renderer 16777217 768 (good_resize_env [40, 41])).exited = none ∧
    (present (resize sample_renderer 16777217 768 (good_resize_env [40, 41])).renderer
      good_present_env).trace.filter
        (fun c => match c with
          | Call.vkCmdSetViewport _ _ _ => true
          | Call.vkCmdSetScissor _ _ _ => true
          | _ => false) =
      [Call.vkCmdSetViewport 15 16777216 768, Call.vkCmdSetScissor 15 16777217 768] := by
  decide

/-- Claim C9, as the code has it. When `resize(w, h)` succeeds and `present()` is called
next: every scissor and every render area that `present()` records has extent `(w, h)`;
every viewport it records has the width `(float)w` and the height `(float)h`, which are `w`
and `h` whenever both are at most `2 ^ 24`; and when the command buffer could be begun, a
render pass, a viewport and a scissor are recorded. -/
theorem present_records_resized_extent (r : Renderer) (w h : Nat) (renv : ResizeEnv)
    (penv : PresentEnv) (_hok : (resize r w h renv).exited = none) :
    (∀ cmd a b, Call.vkCmdSetViewport cmd a b ∈ (present (resize r w h renv).renderer penv).trace →
      a = to_float w ∧ b = to_float h) ∧
    (w ≤ 2 ^ 24 → h ≤ 2 ^ 24 →
      ∀ cmd a b, Call.vkCmdSetViewport cmd a b ∈
        (present (resize r w h renv).renderer penv).trace → a = w ∧ b = h) ∧
    (∀ cmd a b, Call.vkCmdSetScissor cmd a b ∈ (present (resize r w h renv).renderer penv).trace →
      a = w ∧ b = h) ∧
    (∀ cmd rp fb a b, Call.vkCmdBeginRenderPass cmd rp fb a b ∈
      (present (resize r w h renv).renderer penv).trace → a = w ∧ b = h) ∧
    (penv.begin_ok = true → ∃ cmd rp fb,
      Call.vkCmdBeginRenderPass cmd rp fb w h ∈
        (present (resize r w h renv).renderer penv).trace ∧
      Call.vkCmdSetViewport cmd (to_float w) (to_float h) ∈
        (present (resize r w h renv).renderer penv).trace ∧
      Call.vkCmdSetScissor cmd w h ∈ (present (resize r w h renv).renderer penv).trace) := by
  obtain ⟨hw, hh⟩ := resize_stores_extent r w h renv
  generalize (resize r w h renv).renderer = q at hw hh
  have hview : ∀ cmd a b, Call.vkCmdSetViewport cmd a b ∈ (present q penv).trace →
      a = to_float w ∧ b = to_float h := by
    intro cmd a b hmem
    unfold present at hmem
    cases hb : penv.begin_ok <;> cases he : penv.end_ok <;>
      simp [hb, he, hw, hh, fatal_error, message_box, exit_program] at hmem
    · exact ⟨hmem.2.1, hmem.2.2⟩
    · exact ⟨hmem.2.1, hmem.2.2⟩
  refine ⟨hview, ?_, ?_, ?_, ?_⟩
  · intro hw24 hh24 cmd a b hmem
    obtain ⟨ha, hb⟩ := hview cmd a b hmem
    rw [ha, hb, to_float_exact w hw24, to_float_exact h hh24]
    exact ⟨rfl, rfl⟩
  · intro cmd a b hmem
    unfold present at hmem
    cases hb : penv.begin_ok <;> cases he : penv.end_ok <;>
      simp [hb, he, hw, hh, fatal_error, message_box, exit_program] at hmem
    · exact ⟨hmem.2.1, hmem.2.2⟩
    · exact ⟨hmem.2.1, hmem.2.2⟩
  · intro cmd rp fb a b hmem
    unfold present at hmem
    cases hb : penv.begin_ok <;> cases he : penv.end_ok <;>
      simp [hb, he, hw, hh, fatal_error, message_box, exit_program] at hmem
    · exact ⟨hmem.2.2.2.1, hmem.2.2.2.2⟩
    · exact ⟨hmem.2.2.2.1, hmem.2.2.2.2⟩
  · intro hb
    refine ⟨q.m_command_buffers.getD q.m_frame_index 0, q.m_render_pass,
      q.m_swapchain_framebuffers.getD penv.image_index 0, ?_, ?_, ?_⟩ <;>
    · unfold present
      cases he : penv.end_ok <;> simp [hb, he, hw, hh]

theorem present_records_resized_extent_witness :
    (resize sample_renderer 1024 768 (good_resize_env [40, 41])).exited = none ∧
    Call.vkCmdSetViewport 15 1024 768 ∈
      (present (resize sample_renderer 1024 768 (good_resize_env [40, 41])).renderer
        good_present_env).trace ∧
    ∀ cmd a b, Call.vkCmdSetScissor cmd a b ∈
      (present (resize sample_renderer 1024 768 (good_resize_env [40, 41])).renderer
        good_present_env).trace → a = 1024 ∧ b = 768 :=
  ⟨by decide, by decide,
    (present_records_resized_extent sample_renderer 1024 768 (good_resize_env [40, 41])
      good_present_env (by decide)).2.2.1⟩

/-! ## A shader file that cannot be opened -/

theorem format_missing_shader (path : String) :
    format "Missing shader at '\x7b\x7d'" [path] = "Missing shader at '" ++ path ++ "'" :=
  rfl

/-- Claim C10. When `load_binary` cannot open the file at `path`, `load_shader(path)` calls
`fatal_error` with the message `Missing shader at '<path>'`, which contains `path`: the
message is handed to `platform::message_box` (as its first argument) and then exit with
status 1 is requested; the run ends there, and no shader module is created in it. -/
theorem load_shader_missing_file (path : String) (env : ShaderEnv)
    (hmissing : (load_binary env.file path).1 = none) :
    (load_shader path env).trace =
      Call.fopen_s path false :: fatal_error "Missing shader at '\x7b\x7d'" [path] ∧
    fatal_error "Missing shader at '\x7b\x7d'" [path] =
      message_box ("Missing shader at '" ++ path ++ "'") "Error" ++ exit_program 1 ∧
    (∃ a b : String, format "Missing shader at '\x7b\x7d'" [path] = a ++ path ++ b) ∧
    (load_shader path env).exited = some 1 ∧
    (∀ code, (load_shader path env).exited = some code → code ≠ 0) ∧
    (load_shader path env).result = none ∧
    ∀ c ∈ (load_shader path env).trace, c.creates_shader_module = false := by
  have hfile : env.file path = none := by
    unfold load_binary at hmissing
    cases hf : env.file path with
    | none => rfl
    | some buf => simp [hf] at hmissing
  have hrun : load_shader path env =
      ⟨none, Call.fopen_s path false :: fatal_error "Missing shader at '\x7b\x7d'" [path],
        some 1⟩ := by
    unfold load_shader load_binary
    simp [hfile]
  rw [hrun]
  refine ⟨rfl, rfl, ⟨"Missing shader at '", "'", format_missing_shader path⟩, rfl,
    ?_, rfl, ?_⟩
  · intro code hcode
    simp only [Option.some.injEq] at hcode
    omega
  · intro c hc
    simp only [fatal_error, message_box, exit_program, List.cons_append, List.nil_append,
      List.mem_cons, List.mem_singleton, List.not_mem_nil, or_false] at hc
    rcases hc with hc | hc | hc <;> subst hc <;> rfl

theorem load_shader_missing_file_witness :
    (load_binary empty_disk.file "shaders/triangle.vert.spv").1 = none ∧
    (load_shader "shaders/triangle.vert.spv" empty_disk).trace =
      [Call.fopen_s "shaders/triangle.vert.spv" false,
        Call.MessageBoxA "Error" "Missing shader at 'shaders/triangle.vert.spv'",
        Call.ExitProcess 1] :=
  ⟨rfl, (load_shader_missing_file "shaders/triangle.vert.spv" empty_disk rfl).1⟩

/-! ## Queue family selection -/

theorem queue_family_loop_spec (queue_props : List QueueFamily)
    (hlen : queue_props.length < UINT32_SIZE) :
    ∀ (fuel i : Nat), i ≤ queue_props.length → queue_props.length - i < fuel →
      ∃ r, queue_family_loop queue_props fuel i = some r ∧
        ((∃ q, queue_props[r]? = some q ∧ q.graphics_and_present = true ∧ i ≤ r ∧
            ∀ j p, i ≤ j → j < r → queue_props[j]? = some p → p.graphics_and_present = false) ∨
          (r = NO_QUEUE_ID ∧
            ∀ j p, i ≤ j → queue_props[j]? = some p → p.graphics_and_present = false)) := by
  intro fuel
  induction fuel with
  | zero => intro i _ h; omega
  | succ fuel ih =>
    intro i hi hfuel
    unfold queue_family_loop
    cases hq : queue_props[i]? with
    | none =>
      refine ⟨NO_QUEUE_ID, rfl, Or.inr ⟨rfl, ?_⟩⟩
      intro j p hij hp
      have hge : queue_props.length ≤ i := List.getElem?_eq_none_iff.1 hq
      have hlt : j < queue_props.length := (List.getElem?_eq_some.1 hp).1
      omega
    | some q =>
      have hilt : i < queue_props.length := (List.getElem?_eq_some.1 hq).1
      by_cases hgp : q.graphics_and_present = true
      · refine ⟨i, by simp [hgp], Or.inl ⟨q, hq, hgp, Nat.le_refl i, ?_⟩⟩
        intro j p h1 h2
        omega
      · have hwrap : (i + 1) % UINT32_SIZE = i + 1 := Nat.mod_eq_of_lt (by omega)
        have hfalse : q.graphics_and_present = false := by
          cases hb : q.graphics_and_present with
          | true => exact absurd hb hgp
          | false => rfl
        obtain ⟨r, hr, hcase⟩ := ih (i + 1) (by omega) (by omega)
        refine ⟨r, by simp only [hfalse, hwrap]; simpa using hr, ?_⟩
        have hstep : ∀ j p, i ≤ j → (i + 1 ≤ j → queue_props[j]? = some p →
            p.graphics_and_present = false) → queue_props[j]? = some p →
            p.graphics_and_present = false := by
          intro j p hij hrest hp
          rcases Nat.eq_or_lt_of_le hij with heq | hlt
          · subst heq
            rw [hq] at hp
            cases hp
            exact hfalse
          · exact hrest hlt hp
        rcases hcase with ⟨q1, hq1, hgp1, hle, hmin⟩ | ⟨hnone, hall⟩
        · refine Or.inl ⟨q1, hq1, hgp1, by omega, ?_⟩
          intro j p hij hjr hp
          exact hstep j p hij (fun h1 hp1 => hmin j p h1 hjr hp1) hp
        · refine Or.inr ⟨hnone, ?_⟩
          intro j p hij hp
          exact hstep j p hij (fun h1 hp1 => hall j p h1 hp1) hp

/-- Claim C11. For every list of queue families the driver can report (its length is a
`uint32_t`), the selection returns. Either it yields the smallest index whose family has the
graphics bit set and supports presentation, without any fatal error; or no family has both
and the fatal error `Failed to find a Vulkan queue family` is raised. The fatal error is
raised if and only if no family satisfies both. -/
theorem queue_family_selection (queue_props : List QueueFamily)
    (hlen : queue_props.length < UINT32_SIZE) :
    ∃ sel, select_queue_family queue_props = some sel ∧
      ((∃ q, queue_props[sel.queue_id]? = some q ∧
          (q.queueFlags &&& VK_QUEUE_GRAPHICS_BIT ≠ 0 ∧ q.present_support ≠ 0) ∧
          (∀ j p, j < sel.queue_id → queue_props[j]? = some p →
            ¬(p.queueFlags &&& VK_QUEUE_GRAPHICS_BIT ≠ 0 ∧ p.present_support ≠ 0)) ∧
          sel.trace = [] ∧ sel.exited = none) ∨
        ((∀ q ∈ queue_props,
            ¬(q.queueFlags &&& VK_QUEUE_GRAPHICS_BIT ≠ 0 ∧ q.present_support ≠ 0)) ∧
          sel.queue_id = NO_QUEUE_ID ∧
          sel.trace = fatal_error "Failed to find a Vulkan queue family" [] ∧
          sel.exited = some 1)) ∧
      (sel.trace = fatal_error "Failed to find a Vulkan queue family" [] ∧ sel.exited = some 1 ↔
        ∀ q ∈ queue_props,
          ¬(q.queueFlags &&& VK_QUEUE_GRAPHICS_BIT ≠ 0 ∧ q.present_support ≠ 0)) := by
  have hgp : ∀ q : QueueFamily, q.graphics_and_present = true ↔
      (q.queueFlags &&& VK_QUEUE_GRAPHICS_BIT ≠ 0 ∧ q.present_support ≠ 0) := by
    intro q
    simp [QueueFamily.graphics_and_present]
  have hgpf : ∀ q : QueueFamily, q.graphics_and_present = false ↔
      ¬(q.queueFlags &&& VK_QUEUE_GRAPHICS_BIT ≠ 0 ∧ q.present_support ≠ 0) := by
    intro q
    rw [← hgp q]
    simp
  obtain ⟨r, hr, hcase⟩ :=
    queue_family_loop_spec queue_props hlen (queue_props.length + 1) 0 (Nat.zero_le _) (by omega)
  unfold select_queue_family
  rw [hr]
  rcases hcase with ⟨q, hq, hq1, _, hmin⟩ | ⟨hnone, hall⟩
  · have hrlt : r < queue_props.length := (List.getElem?_eq_some.1 hq).1
    have hne : r ≠ NO_QUEUE_ID := by
      unfold NO_QUEUE_ID
      unfold UINT32_SIZE at hlen
      omega
    refine ⟨⟨r, [], none⟩, by simp [hne], Or.inl ⟨q, hq, (hgp q).1 hq1, ?_, rfl, rfl⟩, ?_⟩
    · intro j p hj hp
      exact (hgpf p).1 (hmin j p (Nat.zero_le j) hj hp)
    · constructor
      · intro h
        exact absurd h.2 (by simp)
      · intro h
        exact absurd ((hgp q).1 hq1) (h q (List.getElem?_mem hq))
  · subst hnone
    have hno : ∀ q ∈ queue_props,
        ¬(q.queueFlags &&& VK_QUEUE_GRAPHICS_BIT ≠ 0 ∧ q.present_support ≠ 0) := by
      intro q hmem
      obtain ⟨j, hj, hjq⟩ := List.getElem_of_mem hmem
      exact (hgpf q).1 (hall j q (Nat.zero_le j) (by rw [List.getElem?_eq_getElem hj, hjq]))
    refine ⟨⟨NO_QUEUE_ID, fatal_error "Failed to find a Vulkan queue family" [], some 1⟩,
      by simp, Or.inr ⟨hno, rfl, rfl, rfl⟩, ?_⟩
    exact ⟨fun _ => hno, fun _ => ⟨rfl, rfl⟩⟩

theorem queue_family_selection_witness :
    sample_families.length < UINT32_SIZE ∧
    select_queue_family sample_families = some ⟨2, [], none⟩ ∧
    ∃ sel, select_queue_family sample_families = some sel ∧
      (sel.trace = fatal_error "Failed to find a Vulkan queue family" [] ∧ sel.exited = some 1 ↔
        ∀ q ∈ sample_families,
          ¬(q.queueFlags &&& VK_QUEUE_GRAPHICS_BIT ≠ 0 ∧ q.present_support ≠ 0)) :=
  ⟨by decide, by decide,
    (queue_family_selection sample_families (by decide)).imp (fun _ h => ⟨h.1, h.2.2⟩)⟩

/-! ## The objects of the active slot -/

theorem present_fences (r : Renderer) (env : PresentEnv) :
    ∀ c ∈ (present r env).trace, ∀ f ∈ c.fences, f = r.m_fences.getD r.m_frame_index 0 := by
  unfold present
  cases hb : env.begin_ok <;> cases he : env.end_ok <;>
    simp [fatal_error, message_box, exit_program, Call.fences]

theorem present_semaphores (r : Renderer) (env : PresentEnv) :
    ∀ c ∈ (present r env).trace, ∀ s ∈ c.semaphores,
      s = r.m_semaphores.getD r.m_frame_index 0 := by
  unfold present
  cases hb : env.begin_ok <;> cases he : env.end_ok <;>
    simp [fatal_error, message_box, exit_program, Call.semaphores]

theorem present_command_buffers (r : Renderer) (env : PresentEnv) :
    ∀ c ∈ (present r env).trace, ∀ b ∈ c.command_buffers,
      b = r.m_command_buffers.getD r.m_frame_index 0 := by
  unfold present
  cases hb : env.begin_ok <;> cases he : env.end_ok <;>
    simp [fatal_error, message_box, exit_program, Call.command_buffers]

theorem present_trace_ok (r : Renderer) (env : PresentEnv)
    (hok : (present r env).exited = none) :
    (present r env).trace =
      [Call.vkWaitForFences (r.m_fences.getD r.m_frame_index 0),
        Call.vkResetFences (r.m_fences.getD r.m_frame_index 0),
        Call.vkResetCommandBuffer (r.m_command_buffers.getD r.m_frame_index 0),
        Call.vkBeginCommandBuffer (r.m_command_buffers.getD r.m_frame_index 0) true,
        Call.vkAcquireNextImageKHR r.m_swapchain (r.m_semaphores.getD r.m_frame_index 0)
          env.image_index,
        Call.vkCmdBeginRenderPass (r.m_command_buffers.getD r.m_frame_index 0) r.m_render_pass
          (r.m_swapchain_framebuffers.getD env.image_index 0)
          r.m_swapchain_width r.m_swapchain_height,
        Call.vkCmdBindPipeline (r.m_command_buffers.getD r.m_frame_index 0) r.m_pipeline,
        Call.vkCmdSetViewport (r.m_command_buffers.getD r.m_frame_index 0)
          (to_float r.m_swapchain_width) (to_float r.m_swapchain_height),
        Call.vkCmdSetScissor (r.m_command_buffers.getD r.m_frame_index 0)
          r.m_swapchain_width r.m_swapchain_height,
        Call.vkCmdDraw (r.m_command_buffers.getD r.m_frame_index 0) 3 1 0 0,
        Call.vkCmdEndRenderPass (r.m_command_buffers.getD r.m_frame_index 0),
        Call.vkEndCommandBuffer (r.m_command_buffers.getD r.m_frame_index 0) true,
        Call.vkQueueSubmit (r.m_semaphores.getD r.m_frame_index 0)
          (r.m_command_buffers.getD r.m_frame_index 0) (r.m_fences.getD r.m_frame_index 0),
        Call.vkQueuePresentKHR r.m_swapchain env.image_index] := by
  obtain ⟨hb, he⟩ := (present_exited_iff r env).1 hok
  unfold present
  simp only [hb, he]
  rfl

/-- Claim C12. In every call of `present()` with slot cursor `c`, on every path: each fence
a call is given is `m_fences[c]`, each semaphore is `m_semaphores[c]`, each command buffer is
`m_command_buffers[c]`, so a handle of another slot that differs from the one at `c` is given
to no call. When the call returns, the wait, the reset and the submit get that fence, the
acquire and the submit get that semaphore, and the reset, the recording and the submit get
that command buffer. -/
theorem present_uses_active_slot (r : Renderer) (env : PresentEnv) :
    (∀ c ∈ (present r env).trace, ∀ f ∈ c.fences, f = r.m_fences.getD r.m_frame_index 0) ∧
    (∀ c ∈ (present r env).trace, ∀ s ∈ c.semaphores,
      s = r.m_semaphores.getD r.m_frame_index 0) ∧
    (∀ c ∈ (present r env).trace, ∀ b ∈ c.command_buffers,
      b = r.m_command_buffers.getD r.m_frame_index 0) ∧
    (∀ d, r.m_fences.getD d 0 ≠ r.m_fences.getD r.m_frame_index 0 →
      ∀ c ∈ (present r env).trace, r.m_fences.getD d 0 ∉ c.fences) ∧
    (∀ d, r.m_semaphores.getD d 0 ≠ r.m_semaphores.getD r.m_frame_index 0 →
      ∀ c ∈ (present r env).trace, r.m_semaphores.getD d 0 ∉ c.semaphores) ∧
    (∀ d, r.m_command_buffers.getD d 0 ≠ r.m_command_buffers.getD r.m_frame_index 0 →
      ∀ c ∈ (present r env).trace, r.m_command_buffers.getD d 0 ∉ c.command_buffers) ∧
    ((present r env).exited = none →
      Call.vkWaitForFences (r.m_fences.getD r.m_frame_index 0) ∈ (present r env).trace ∧
      Call.vkResetFences (r.m_fences.getD r.m_frame_index 0) ∈ (present r env).trace ∧
      Call.vkAcquireNextImageKHR r.m_swapchain (r.m_semaphores.getD r.m_frame_index 0)
        env.image_index ∈ (present r env).trace ∧
      Call.vkResetCommandBuffer (r.m_command_buffers.getD r.m_frame_index 0) ∈
        (present r env).trace ∧
      Call.vkCmdDraw (r.m_command_buffers.getD r.m_frame_index 0) 3 1 0 0 ∈
        (present r env).trace ∧
      Call.vkQueueSubmit (r.m_semaphores.getD r.m_frame_index 0)
        (r.m_command_buffers.getD r.m_frame_index 0) (r.m_fences.getD r.m_frame_index 0) ∈
        (present r env).trace) := by
  refine ⟨present_fences r env, present_semaphores r env, present_command_buffers r env,
    ?_, ?_, ?_, ?_⟩
  · intro d hd c hc hmem
    exact hd (present_fences r env c hc _ hmem)
  · intro d hd c hc hmem
    exact hd (present_semaphores r env c hc _ hmem)
  · intro d hd c hc hmem
    exact hd (present_command_buffers r env c hc _ hmem)
  · intro hok
    rw [present_trace_ok r env hok]
    simp

/-! ## The dialog of a fatal error -/

/-- Claim C13 fails on the code. The function `fatal_error` passes the formatted message
as the first argument of `platform::message_box(title, message)` and `"Error"` as the
second, so `MessageBoxA` gets `"Error"` as its text and the formatted message as its caption;
the request to exit with status 1 comes after it. For the constructor's first fatal error the
dialog has the text `Error` and the caption `Failed to create Vulkan instance.`. -/
theorem fatal_error_dialog (fmt : String) (args : List String) :
    fatal_error fmt args = [Call.MessageBoxA "Error" (format fmt args), Call.ExitProcess 1] ∧
    fatal_error fmt args = message_box (format fmt args) "Error" ++ exit_program 1 ∧
    (∀ title message, message_box title message = [Call.MessageBoxA message title]) ∧
    fatal_error "Failed to create Vulkan instance." [] =
      [Call.MessageBoxA "Error" "Failed to create Vulkan instance.", Call.ExitProcess 1] ∧
    fatal_error "Failed to create Vulkan instance." [] ≠
      [Call.MessageBoxA "Failed to create Vulkan instance." "Error", Call.ExitProcess 1] := by
  refine ⟨rfl, rfl, fun _ _ => rfl, rfl, ?_⟩
  decide

end Vro
